import Mathlib

/-!
Shallow embedding of the faculty-portal web application (`app.py`).

The embedding covers the parts of the program that the verified claims
talk about: the role resolver and the capability helpers, the
publication ownership checks, the faculty CRUD handlers (add, edit,
delete), the list/export filter-to-query builders together with a small
evaluator for the produced parameterized queries, the per-faculty
publications view, and the dashboard experience statistics.

Modelling conventions:
  - Python floats are modelled as rationals (`ℚ`); all comparisons in
    the program are order comparisons of short decimal literals, which
    the rational order reproduces.
  - the MySQL tables are modelled as in-memory lists of records; a
    handler is a pure function from (session, database, input) to
    (result, database).
  - parameterized SQL is modelled as a list of clause tags plus a list
    of parameters; executing a query whose placeholder count differs
    from its parameter count is an error, exactly as in the MySQL
    connector.
-/

namespace FacultyPortal

/-! ### Python string and number helpers -/

/-- Whitespace characters recognised by Python `str.strip()` (ASCII part). -/
def isPySpace (c : Char) : Bool :=
  c == ' ' || c == '\t' || c == '\n' || c == '\r' ||
  c == Char.ofNat 11 || c == Char.ofNat 12

/-- `str.strip()` on a character list. -/
def stripChars (cs : List Char) : List Char :=
  ((cs.dropWhile isPySpace).reverse.dropWhile isPySpace).reverse

/-- Python truthiness of `s.strip()`: the stripped string is non-empty. -/
def stripTruthy (s : String) : Bool :=
  !(stripChars s.toList).isEmpty

/-- Split a character list on a separator character (like `str.split(sep)`). -/
def splitOnChar (sep : Char) : List Char → List (List Char)
  | [] => [[]]
  | c :: cs =>
      let rest := splitOnChar sep cs
      if c == sep then
        [] :: rest
      else
        match rest with
        | [] => [[c]]
        | g :: gs => (c :: g) :: gs

/-- Numeric value of a digit string. -/
def digitsToNat (cs : List Char) : Nat :=
  cs.foldl (fun a c => a * 10 + (c.toNat - 48)) 0

/-- Python `float(s)` on the plain decimal fragment: optional surrounding
whitespace, optional sign, digits with at most one dot and at least one
digit.  Exponent notation, underscores, `inf` and `nan` do not occur in
the inputs this program receives from its own forms and are not modelled.
`none` is a raised `ValueError`. -/
def pyFloat? (s : String) : Option ℚ :=
  let cs := stripChars s.toList
  let signAndDigits : ℚ × List Char :=
    match cs with
    | '-' :: rest => (-1, rest)
    | '+' :: rest => (1, rest)
    | _ => (1, cs)
  let sign := signAndDigits.1
  let body := signAndDigits.2
  match splitOnChar '.' body with
  | [intPart] =>
      if !intPart.isEmpty && intPart.all Char.isDigit then
        some (sign * (digitsToNat intPart : ℚ))
      else
        none
  | [intPart, fracPart] =>
      if (!intPart.isEmpty || !fracPart.isEmpty) &&
         intPart.all Char.isDigit && fracPart.all Char.isDigit then
        some (sign * ((digitsToNat intPart : ℚ) +
          (digitsToNat fracPart : ℚ) / (10 : ℚ) ^ fracPart.length))
      else
        none
  | _ => none

/-- Gregorian leap year, as in `datetime`. -/
def isLeapYear (y : Nat) : Bool :=
  y % 4 == 0 && (y % 100 != 0 || y % 400 == 0)

/-- Days in a month, as in `datetime`. -/
def daysInMonth (y m : Nat) : Nat :=
  if m == 2 then
    if isLeapYear y then 29 else 28
  else if m == 4 || m == 6 || m == 9 || m == 11 then 30
  else 31

/-- `datetime.datetime.strptime(s, "%Y-%m-%d")` succeeds: four year digits,
one or two month and day digits, and a calendar-valid date. -/
def pyStrptimeYmd (s : String) : Bool :=
  match splitOnChar '-' s.toList with
  | [ys, ms, ds] =>
      ys.length == 4 && ys.all Char.isDigit &&
      (ms.length == 1 || ms.length == 2) && ms.all Char.isDigit &&
      (ds.length == 1 || ds.length == 2) && ds.all Char.isDigit &&
      (let y := digitsToNat ys
       let m := digitsToNat ms
       let d := digitsToNat ds
       decide (1 ≤ y) && decide (1 ≤ m) && decide (m ≤ 12) &&
       decide (1 ≤ d) && decide (d ≤ daysInMonth y m))
  | _ => false

/-! ### Session and role resolution -/

/-- The request-scoped session: `session.get("role")` and
`session.get("email", "")`.  A `none` role is a session with no role key. -/
structure Session where
  role : Option String
  email : String
deriving Repr, DecidableEq

/-- The alias table inside `get_user_role` (`role_mapping` in the source);
`none` means the token is not a key of the dictionary. -/
def role_mapping (role : String) : Option String :=
  match role with
  | "admin" => some "IQAC"
  | "editor" => some "Office"
  | "viewer" => some "Faculty"
  | "Admin" => some "IQAC"
  | "Editor" => some "Office"
  | "Viewer" => some "Faculty"
  | "IQAC(admin)" => some "IQAC"
  | _ => none

/-- `get_user_role()`: read `session.get("role", "Faculty")` and apply
`role_mapping.get(role, role)`. -/
def get_user_role (s : Session) : String :=
  let role := s.role.getD "Faculty"
  (role_mapping role).getD role

/-- `can_edit_faculty()`. -/
def can_edit_faculty (s : Session) : Bool :=
  get_user_role s == "IQAC" || get_user_role s == "Office"

/-- `can_delete_faculty()`. -/
def can_delete_faculty (s : Session) : Bool :=
  get_user_role s == "IQAC"

/-- `can_add_faculty()`. -/
def can_add_faculty (s : Session) : Bool :=
  get_user_role s == "IQAC" || get_user_role s == "Office"

/-! ### Data model -/

/-- A row of the `faculty` table (the columns the verified claims use). -/
structure FacultyRec where
  id : Nat
  employee_id : String
  name_ssc : String
  email : String
  department : String
  designation : String
  appointment_type : String
  teaching_exp_pragati : ℚ
  teaching_exp_other : ℚ
  industrial_exp : ℚ
  overall_exp : ℚ
  experience_category : String
deriving Repr, DecidableEq

/-- A row of a dependent table (`qualifications`, `journal_publications`,
`conference_publications`, `book_chapters`, `patents`): identity, owning
faculty, and the column the table is ordered by (`year_of_passing`,
`year_of_publication`, or `filing_date` rendered as a sortable number). -/
structure ChildRow where
  id : Nat
  faculty_id : Nat
  order_key : Int
deriving Repr, DecidableEq

/-- The database state: one list per table. -/
structure Db where
  faculty : List FacultyRec
  qualifications : List ChildRow
  journal_publications : List ChildRow
  conference_publications : List ChildRow
  book_chapters : List ChildRow
  patents : List ChildRow
deriving Repr, DecidableEq

/-- `SELECT ... FROM faculty WHERE id = %s` with `fetchone()`. -/
def facultyById (faculty : List FacultyRec) (faculty_id : Nat) : Option FacultyRec :=
  faculty.find? (fun f => f.id == faculty_id)

/-! ### Publication ownership checks -/

/-- `can_edit_publications(faculty_id)`: IQAC and Office may edit exactly
when the target faculty record carries their own session email; Faculty
likewise; any other role is refused. -/
def can_edit_publications (s : Session) (db : Db) (faculty_id : Nat) : Bool :=
  let user_role := get_user_role s
  let user_email := s.email
  if user_role == "IQAC" || user_role == "Office" then
    match facultyById db.faculty faculty_id with
    | some faculty => faculty.email == user_email
    | none => false
  else if user_role == "Faculty" then
    match facultyById db.faculty faculty_id with
    | some faculty => faculty.email == user_email
    | none => false
  else
    false

/-- `check_publication_access(faculty_id)`: textually the same check as
`can_edit_publications` except that the first branch tests the raw token
`"IQAC(admin)"` instead of `"IQAC"`. -/
def check_publication_access (s : Session) (db : Db) (faculty_id : Nat) : Bool :=
  let user_role := get_user_role s
  let user_email := s.email
  if user_role == "IQAC(admin)" || user_role == "Office" then
    match facultyById db.faculty faculty_id with
    | some faculty => faculty.email == user_email
    | none => false
  else if user_role == "Faculty" then
    match facultyById db.faculty faculty_id with
    | some faculty => faculty.email == user_email
    | none => false
  else
    false

/-! ### Experience classifier -/

/-- The experience-category computation inlined in `add_faculty`. -/
def add_faculty_experience_category (overall_exp : ℚ) : String :=
  if overall_exp ≤ 5.9 then "0-5"
  else if overall_exp ≤ 10.9 then "6-10"
  else "10+"

/-- The experience-category computation inlined in `edit_faculty`. -/
def edit_faculty_experience_category (overall_exp : ℚ) : String :=
  if overall_exp ≤ 5.9 then "0-5"
  else if overall_exp ≤ 10.9 then "6-10"
  else "10+"

/-! ### Faculty create, update, delete -/

/-- The form fields of `add_faculty` / `edit_faculty` that the handlers
inspect.  The four experience values arrive already parsed (in the source
they are read through `float(...)`; a parse failure lands in the generic
error branch, which performs no write, so it does not affect the claims
below).  An empty optional date stands for an absent field
(`request.form.get(...) or None`). -/
structure FacultyForm where
  employee_id : String
  name_ssc : String
  email : String
  department : String
  designation : String
  appointment_type : String
  dob : String
  date_of_joining : String
  ratification_date : String
  previous_employment_date : String
  resignation_date : String
  teaching_exp_pragati : ℚ
  teaching_exp_other : ℚ
  industrial_exp : ℚ
  overall_exp : ℚ
deriving Repr, DecidableEq

/-- The outcome of a faculty write handler.  Every constructor except
`success` is an early `return render_template(...)` after a `flash`;
none of them touches the database. -/
inductive WriteResult where
  | duplicateEmployeeId
  | duplicateEmail
  | missingDob
  | invalidDob
  | missingDateOfJoining
  | invalidDateOfJoining
  | invalidRatificationDate
  | invalidPrevEmploymentDate
  | invalidResignationDate
  | experienceMismatch
  | success
deriving Repr, DecidableEq

/-- Next auto-increment id for an insert. -/
def nextFacultyId (faculty : List FacultyRec) : Nat :=
  faculty.foldl (fun m f => max m f.id) 0 + 1

/-- The faculty row built by `add_faculty` from the form. -/
def formToRecord (id : Nat) (form : FacultyForm) (experience_category : String) :
    FacultyRec :=
  { id := id
    employee_id := form.employee_id
    name_ssc := form.name_ssc
    email := form.email
    department := form.department
    designation := form.designation
    appointment_type := form.appointment_type
    teaching_exp_pragati := form.teaching_exp_pragati
    teaching_exp_other := form.teaching_exp_other
    industrial_exp := form.industrial_exp
    overall_exp := form.overall_exp
    experience_category := experience_category }

/-- The POST branch of `add_faculty`, in source order: duplicate
employee-id check, duplicate email check, required/format checks on the
dates, the experience-sum validation, then the `INSERT`.  The photo and
document upload branches are identity when no file accompanies the
request and reject without writing otherwise, so they are omitted. -/
def add_faculty (form : FacultyForm) (db : Db) : WriteResult × Db :=
  if (db.faculty.find? (fun f => f.employee_id == form.employee_id)).isSome then
    (.duplicateEmployeeId, db)
  else if (db.faculty.find? (fun f => f.email == form.email)).isSome then
    (.duplicateEmail, db)
  else if form.dob == "" then
    (.missingDob, db)
  else if !pyStrptimeYmd form.dob then
    (.invalidDob, db)
  else if form.date_of_joining == "" then
    (.missingDateOfJoining, db)
  else if !pyStrptimeYmd form.date_of_joining then
    (.invalidDateOfJoining, db)
  else if form.ratification_date != "" && !pyStrptimeYmd form.ratification_date then
    (.invalidRatificationDate, db)
  else if form.previous_employment_date != "" &&
      !pyStrptimeYmd form.previous_employment_date then
    (.invalidPrevEmploymentDate, db)
  else if form.resignation_date != "" && !pyStrptimeYmd form.resignation_date then
    (.invalidResignationDate, db)
  else
    let experience_category := add_faculty_experience_category form.overall_exp
    let calculated_total :=
      form.teaching_exp_pragati + form.teaching_exp_other + form.industrial_exp
    if |calculated_total - form.overall_exp| > 0.1 then
      (.experienceMismatch, db)
    else
      (.success,
        { db with
            faculty :=
              db.faculty ++ [formToRecord (nextFacultyId db.faculty) form
                experience_category] })

/-- The POST branch of `edit_faculty`, in source order: duplicate
employee-id and email checks (each excluding the edited row itself),
format checks on the dates, then the `UPDATE ... WHERE id = %s`.  The
handler recomputes the experience category but performs no
experience-sum validation; an `UPDATE` of an absent id changes no row
and still reports success. -/
def edit_faculty (faculty_id : Nat) (form : FacultyForm) (db : Db) :
    WriteResult × Db :=
  if (db.faculty.find? (fun f =>
      f.employee_id == form.employee_id && f.id != faculty_id)).isSome then
    (.duplicateEmployeeId, db)
  else if (db.faculty.find? (fun f =>
      f.email == form.email && f.id != faculty_id)).isSome then
    (.duplicateEmail, db)
  else if !pyStrptimeYmd form.dob then
    (.invalidDob, db)
  else if !pyStrptimeYmd form.date_of_joining then
    (.invalidDateOfJoining, db)
  else if form.ratification_date != "" && !pyStrptimeYmd form.ratification_date then
    (.invalidRatificationDate, db)
  else if form.previous_employment_date != "" &&
      !pyStrptimeYmd form.previous_employment_date then
    (.invalidPrevEmploymentDate, db)
  else if form.resignation_date != "" && !pyStrptimeYmd form.resignation_date then
    (.invalidResignationDate, db)
  else
    let experience_category := edit_faculty_experience_category form.overall_exp
    (.success,
      { db with
          faculty := db.faculty.map (fun f =>
            if f.id == faculty_id then
              formToRecord f.id form experience_category
            else f) })

/-- Modelled from the spec: the repository (MySQL) enforces the foreign
keys from `qualifications` and the four publication tables to `faculty`,
surfacing error 1451 when a parent with children is deleted (§3:
"cannot delete a Faculty that still has dependent
Qualifications/Publications, enforced by the underlying store").
The schema itself is not under src/. -/
def hasDependentRows (db : Db) (faculty_id : Nat) : Bool :=
  (db.qualifications ++ db.journal_publications ++ db.conference_publications ++
    db.book_chapters ++ db.patents).any (fun r => r.faculty_id == faculty_id)

/-- The outcome of `delete_faculty`; every branch redirects to `/faculty`. -/
inductive DeleteFacultyResult where
  | notFound
  | dependencyError
  | deleted (name : String)
deriving Repr, DecidableEq

/-- `delete_faculty(faculty_id)`: the handler is guarded only by
`login_required`; its body looks the target up by id and deletes it.  No
role or ownership check occurs anywhere in the handler (the session is
never consulted), so the session argument is unused. -/
def delete_faculty (_s : Session) (db : Db) (faculty_id : Nat) :
    DeleteFacultyResult × Db :=
  match facultyById db.faculty faculty_id with
  | none => (.notFound, db)
  | some faculty =>
      if hasDependentRows db faculty_id then
        (.dependencyError, db)
      else
        (.deleted faculty.name_ssc,
          { db with faculty := db.faculty.filter (fun f => !(f.id == faculty_id)) })

/-! ### Filter-to-query builders (listing and export) -/

/-- One `AND`-clause of the built faculty query.  Each tag stands for the
literal SQL text appended to the query string; its parameters ride
separately in the parameter list, exactly as in the source. -/
inductive FilterClause where
  | emailEq
  | searchLike
  | departmentEq
  | designationEq
  | appointmentTypeEq
  | overallExpGe
  | overallExpLe
deriving Repr, DecidableEq

/-- How many `%s` placeholders the clause text contains. -/
def FilterClause.placeholderCount : FilterClause → Nat
  | .searchLike => 2
  | _ => 1

/-- A query parameter as handed to `cursor.execute`. -/
inductive SqlParam where
  | str (v : String)
  | num (v : ℚ)
deriving Repr, DecidableEq

/-- Total `%s` placeholders of a built query. -/
def placeholderTotal (clauses : List FilterClause) : Nat :=
  (clauses.map FilterClause.placeholderCount).sum

/-- The query-string arguments of `/faculty` and `/download_faculty_excel`
(each `request.args.get(name, "")`). -/
structure FilterArgs where
  search : String
  department : String
  appointment_type : String
  exp_from : String
  exp_to : String
  designation : String
deriving Repr, DecidableEq

/-- The experience-bound steps shared verbatim by `faculty_list` and
`download_faculty_excel`.  The source appends the SQL fragment to the
query string *before* calling `float(...)`; when the conversion raises
`ValueError` the handler only logs, so the clause survives without its
parameter. -/
def addExpFilters (args : FilterArgs) (acc : List FilterClause × List SqlParam) :
    List FilterClause × List SqlParam :=
  let acc :=
    if args.exp_from != "" && stripTruthy args.exp_from then
      match pyFloat? args.exp_from with
      | some v => (acc.1 ++ [.overallExpGe], acc.2 ++ [.num v])
      | none => (acc.1 ++ [.overallExpGe], acc.2)
    else acc
  if args.exp_to != "" && stripTruthy args.exp_to then
    match pyFloat? args.exp_to with
    | some v => (acc.1 ++ [.overallExpLe], acc.2 ++ [.num v])
    | none => (acc.1 ++ [.overallExpLe], acc.2)
  else acc

/-- The `LIKE` pattern built for the search filter: `f"%{search}%"`. -/
def likePattern (search : String) : String :=
  "%" ++ search ++ "%"

/-- The role-dependent base query shared by both paths: Faculty sees only
the row carrying the session email, every other role starts from
`WHERE 1=1`. -/
def roleBaseQuery (s : Session) : List FilterClause × List SqlParam :=
  if get_user_role s == "Faculty" then
    ([.emailEq], [.str s.email])
  else
    ([], [])

/-- The query built by `faculty_list`: the text filters are guarded by
`if value and value.strip():`. -/
def faculty_list_query (s : Session) (args : FilterArgs) :
    List FilterClause × List SqlParam :=
  let acc := roleBaseQuery s
  let acc :=
    if args.search != "" && stripTruthy args.search then
      (acc.1 ++ [.searchLike],
       acc.2 ++ [.str (likePattern args.search), .str (likePattern args.search)])
    else acc
  let acc :=
    if args.department != "" && stripTruthy args.department then
      (acc.1 ++ [.departmentEq], acc.2 ++ [.str args.department])
    else acc
  let acc :=
    if args.designation != "" && stripTruthy args.designation then
      (acc.1 ++ [.designationEq], acc.2 ++ [.str args.designation])
    else acc
  let acc :=
    if args.appointment_type != "" && stripTruthy args.appointment_type then
      (acc.1 ++ [.appointmentTypeEq], acc.2 ++ [.str args.appointment_type])
    else acc
  addExpFilters args acc

/-- The query built by `download_faculty_excel`: identical clauses, but
the text filters are guarded only by `if value:` (no `.strip()`), while
the experience bounds keep the stripped guard. -/
def download_faculty_excel_query (s : Session) (args : FilterArgs) :
    List FilterClause × List SqlParam :=
  let acc := roleBaseQuery s
  let acc :=
    if args.search != "" then
      (acc.1 ++ [.searchLike],
       acc.2 ++ [.str (likePattern args.search), .str (likePattern args.search)])
    else acc
  let acc :=
    if args.department != "" then
      (acc.1 ++ [.departmentEq], acc.2 ++ [.str args.department])
    else acc
  let acc :=
    if args.designation != "" then
      (acc.1 ++ [.designationEq], acc.2 ++ [.str args.designation])
    else acc
  let acc :=
    if args.appointment_type != "" then
      (acc.1 ++ [.appointmentTypeEq], acc.2 ++ [.str args.appointment_type])
    else acc
  addExpFilters args acc

/-! ### Query evaluation -/

/-- SQL `LIKE` with the `%` (any run) and `_` (any one character)
wildcards, over character lists: `%` lets the rest of the pattern match
any suffix of the remaining text. -/
def likeMatch : List Char → List Char → Bool
  | [], cs => cs.isEmpty
  | '%' :: ps, cs =>
      (List.range (cs.length + 1)).any (fun i => likeMatch ps (cs.drop i))
  | '_' :: ps, cs =>
      match cs with
      | [] => false
      | _ :: cs => likeMatch ps cs
  | p :: ps, cs =>
      match cs with
      | [] => false
      | c :: cs => p == c && likeMatch ps cs

/-- Does a row satisfy the clause list, consuming parameters in order.
Only called with matching placeholder and parameter counts. -/
def rowMatches : List FilterClause → List SqlParam → FacultyRec → Bool
  | [], _, _ => true
  | .emailEq :: cs, .str v :: ps, f =>
      f.email == v && rowMatches cs ps f
  | .searchLike :: cs, .str p1 :: .str p2 :: ps, f =>
      (likeMatch p1.toList f.name_ssc.toList ||
       likeMatch p2.toList f.employee_id.toList) && rowMatches cs ps f
  | .departmentEq :: cs, .str v :: ps, f =>
      f.department == v && rowMatches cs ps f
  | .designationEq :: cs, .str v :: ps, f =>
      f.designation == v && rowMatches cs ps f
  | .appointmentTypeEq :: cs, .str v :: ps, f =>
      f.appointment_type == v && rowMatches cs ps f
  | .overallExpGe :: cs, .num v :: ps, f =>
      decide (v ≤ f.overall_exp) && rowMatches cs ps f
  | .overallExpLe :: cs, .num v :: ps, f =>
      decide (f.overall_exp ≤ v) && rowMatches cs ps f
  | _, _, _ => false

/-- Insert into a list ascending by a string key (stable). -/
def insertByName (key : FacultyRec → String) (x : FacultyRec) :
    List FacultyRec → List FacultyRec
  | [] => [x]
  | y :: ys =>
      if key y ≤ key x then y :: insertByName key x ys
      else x :: y :: ys

/-- `ORDER BY name_ssc` (ascending, stable). -/
def orderByName : List FacultyRec → List FacultyRec
  | [] => []
  | x :: xs => insertByName (fun f => f.name_ssc) x (orderByName xs)

/-- `cursor.execute(query, params)` followed by `fetchall()`: the MySQL
connector raises a `ProgrammingError` (`none` here) when the number of
`%s` placeholders in the query text differs from the number of
parameters supplied; otherwise the filtered rows come back ordered by
`name_ssc`. -/
def runFacultyQuery (q : List FilterClause × List SqlParam)
    (faculty : List FacultyRec) : Option (List FacultyRec) :=
  if placeholderTotal q.1 == q.2.length then
    some (orderByName (faculty.filter (rowMatches q.1 q.2)))
  else
    none

/-- The record set of the on-screen listing `/faculty`. -/
def faculty_list (s : Session) (args : FilterArgs) (db : Db) :
    Option (List FacultyRec) :=
  runFacultyQuery (faculty_list_query s args) db.faculty

/-- The record set feeding the spreadsheet export
`/download_faculty_excel`. -/
def download_faculty_excel (s : Session) (args : FilterArgs) (db : Db) :
    Option (List FacultyRec) :=
  runFacultyQuery (download_faculty_excel_query s args) db.faculty

/-! ### Publications view and mutation endpoints -/

/-- Insert into a list descending by the order key (stable). -/
def insertByKeyDesc (x : ChildRow) : List ChildRow → List ChildRow
  | [] => [x]
  | y :: ys =>
      if x.order_key ≥ y.order_key then x :: y :: ys
      else y :: insertByKeyDesc x ys

/-- `ORDER BY <key> DESC` over a child table. -/
def orderByKeyDesc : List ChildRow → List ChildRow
  | [] => []
  | x :: xs => insertByKeyDesc x (orderByKeyDesc xs)

/-- `SELECT * FROM <table> WHERE faculty_id = %s ORDER BY <key> DESC`. -/
def childRowsFor (table : List ChildRow) (faculty_id : Nat) : List ChildRow :=
  orderByKeyDesc (table.filter (fun r => r.faculty_id == faculty_id))

/-- What `view_publications` sends back: either the not-found redirect to
`/faculty`, or the rendered publications page for the target faculty. -/
inductive ViewPublicationsResult where
  | notFoundRedirect
  | page (faculty : FacultyRec) (journals conferences book_chapters patents : List ChildRow)
      (can_edit : Bool)
deriving Repr, DecidableEq

/-- `view_publications(faculty_id)`: the handler performs no role or
ownership gate before rendering (its own comment reads "Anyone can view,
but editing restricted"); it only passes the ownership check result to
the template as `can_edit`. -/
def view_publications (s : Session) (db : Db) (faculty_id : Nat) :
    ViewPublicationsResult :=
  match facultyById db.faculty faculty_id with
  | none => .notFoundRedirect
  | some faculty =>
      .page faculty
        (childRowsFor db.journal_publications faculty_id)
        (childRowsFor db.conference_publications faculty_id)
        (childRowsFor db.book_chapters faculty_id)
        (childRowsFor db.patents faculty_id)
        (can_edit_publications s db faculty_id)

/-- Outcome of a publication mutation endpoint. -/
inductive PublicationResult where
  | accessDenied
  | success
deriving Repr, DecidableEq

/-- `add_journal_publication(faculty_id)`: gated by
`can_edit_publications`, then inserts the new row. -/
def add_journal_publication (s : Session) (db : Db) (faculty_id : Nat)
    (row : ChildRow) : PublicationResult × Db :=
  if !can_edit_publications s db faculty_id then
    (.accessDenied, db)
  else
    (.success, { db with journal_publications := db.journal_publications ++ [row] })

/-- `add_patent(faculty_id)`: gated by `check_publication_access`, then
inserts the new row. -/
def add_patent (s : Session) (db : Db) (faculty_id : Nat) (row : ChildRow) :
    PublicationResult × Db :=
  if !check_publication_access s db faculty_id then
    (.accessDenied, db)
  else
    (.success, { db with patents := db.patents ++ [row] })

/-- `delete_patent(patent_id)`: looks the patent up, then gates the
deletion with `check_publication_access` on the owning faculty. -/
def delete_patent (s : Session) (db : Db) (patent_id : Nat) :
    Option (PublicationResult × Db) :=
  match db.patents.find? (fun r => r.id == patent_id) with
  | none => none
  | some patent =>
      if !check_publication_access s db patent.faculty_id then
        some (.accessDenied, db)
      else
        some (.success,
          { db with patents := db.patents.filter (fun r => !(r.id == patent_id)) })

/-! ### Dashboard experience statistics -/

/-- One row of the dashboard experience table. -/
structure ExperienceStat where
  experience_category : String
  count : Nat
deriving Repr, DecidableEq

/-- Modelled from the spec: `get_experience_stats` lives in the
module `utils` of the repository, which is not under src/; §4.5 describes the
statistics helpers as counting the given faculty set by experience
bucket via the §4.4 classifier.  `index` only reaches it with an empty
faculty set. -/
def get_experience_stats (faculty_data : List FacultyRec) : List ExperienceStat :=
  [{ experience_category := "0-5",
     count := (faculty_data.filter
       (fun f => add_faculty_experience_category f.overall_exp == "0-5")).length },
   { experience_category := "6-10",
     count := (faculty_data.filter
       (fun f => add_faculty_experience_category f.overall_exp == "6-10")).length },
   { experience_category := "10+",
     count := (faculty_data.filter
       (fun f => add_faculty_experience_category f.overall_exp == "10+")).length }]

/-- The experience statistics computed inline in `index`: for a non-empty
faculty set the three counts use the predicates `overall_exp <= 5.9`,
`6 <= overall_exp <= 10.9` and `overall_exp > 10.9`; an empty set falls
back to `get_experience_stats`. -/
def index_experience_stats (faculty_data : List FacultyRec) : List ExperienceStat :=
  if !faculty_data.isEmpty then
    let count_0_5 :=
      (faculty_data.filter (fun f => decide (f.overall_exp ≤ 5.9))).length
    let count_6_10 :=
      (faculty_data.filter (fun f =>
        decide (6 ≤ f.overall_exp) && decide (f.overall_exp ≤ 10.9))).length
    let count_10_plus :=
      (faculty_data.filter (fun f => decide (f.overall_exp > 10.9))).length
    [{ experience_category := "0-5", count := count_0_5 },
     { experience_category := "6-10", count := count_6_10 },
     { experience_category := "10+", count := count_10_plus }]
  else
    get_experience_stats faculty_data

/-! ### Concrete fixtures for the evaluation theorems -/

/-- A faculty record owned (by email) by the user `a@x.edu`. -/
def ashaRec : FacultyRec :=
  { id := 7, employee_id := "E7", name_ssc := "Asha", email := "a@x.edu",
    department := "CSE", designation := "Professor", appointment_type := "Regular",
    teaching_exp_pragati := 2, teaching_exp_other := 1, industrial_exp := 0,
    overall_exp := 3, experience_category := "0-5" }

/-- A second faculty record, owned by `b@x.edu`. -/
def belaRec : FacultyRec :=
  { id := 8, employee_id := "E8", name_ssc := "Bela", email := "b@x.edu",
    department := "ECE", designation := "Professor", appointment_type := "Regular",
    teaching_exp_pragati := 4, teaching_exp_other := 0, industrial_exp := 0,
    overall_exp := 4, experience_category := "0-5" }

/-- Database holding only `ashaRec`, with no dependent rows. -/
def dbAsha : Db :=
  { faculty := [ashaRec], qualifications := [], journal_publications := [],
    conference_publications := [], book_chapters := [], patents := [] }

/-- A journal publication owned by faculty 7. -/
def ashaJournalRow : ChildRow :=
  { id := 1, faculty_id := 7, order_key := 2024 }

/-- Database holding both faculty records and one journal row of faculty 7. -/
def dbTwoFac : Db :=
  { faculty := [ashaRec, belaRec], qualifications := [],
    journal_publications := [ashaJournalRow], conference_publications := [],
    book_chapters := [], patents := [] }

/-- Filter arguments with every field absent. -/
def emptyArgs : FilterArgs :=
  { search := "", department := "", appointment_type := "", exp_from := "",
    exp_to := "", designation := "" }

/-- Session of an IQAC user unrelated to any faculty record. -/
def iqacSession : Session :=
  { role := some "IQAC", email := "q@x.edu" }

/-- Session of an Office user unrelated to any faculty record. -/
def officeSession : Session :=
  { role := some "Office", email := "o@x.edu" }

/-- Session of a Faculty user unrelated to any faculty record. -/
def facultySession : Session :=
  { role := some "Faculty", email := "f@x.edu" }

/-- Session of an IQAC user whose email matches `ashaRec`. -/
def iqacOwnerSession : Session :=
  { role := some "IQAC", email := "a@x.edu" }

/-- Session of the Faculty-role user `b@x.edu`. -/
def belaSession : Session :=
  { role := some "Faculty", email := "b@x.edu" }

/-- A fresh publication row for faculty 7. -/
def newPubRow : ChildRow :=
  { id := 5, faculty_id := 7, order_key := 2025 }

/-- An edit form for faculty 7 whose experience components (1 + 1 + 1) differ
from the overall value (10) by far more than the 0.1 tolerance. -/
def mismatchEditForm : FacultyForm :=
  { employee_id := "E7", name_ssc := "Asha", email := "a@x.edu",
    department := "CSE", designation := "Professor", appointment_type := "Regular",
    dob := "1980-01-02", date_of_joining := "2010-06-01",
    ratification_date := "", previous_employment_date := "", resignation_date := "",
    teaching_exp_pragati := 1, teaching_exp_other := 1, industrial_exp := 1,
    overall_exp := 10 }

/-- Filter arguments whose lower experience bound is not numeric. -/
def badFromArgs : FilterArgs :=
  { emptyArgs with exp_from := "abc" }

/-- Filter arguments whose upper experience bound is not numeric. -/
def badToArgs : FilterArgs :=
  { emptyArgs with exp_to := "xy" }

/-- Filter arguments whose search string is a single space. -/
def spaceSearchArgs : FilterArgs :=
  { emptyArgs with search := " " }

/-- A faculty record whose overall experience lies strictly between 5.9
and 6; the persisted category, as the classifier computes it, is 6-10. -/
def borderlineRec : FacultyRec :=
  { id := 9, employee_id := "E9", name_ssc := "Chand", email := "c@x.edu",
    department := "CSE", designation := "Professor", appointment_type := "Regular",
    teaching_exp_pragati := 5.95, teaching_exp_other := 0, industrial_exp := 0,
    overall_exp := 5.95, experience_category := "6-10" }

/-- The legacy alias tokens: exactly the keys of `role_mapping`. -/
def legacyAliases : List String :=
  ["admin", "editor", "viewer", "Admin", "Editor", "Viewer", "IQAC(admin)"]

/-! ### Theorems for the verified claims -/

/-- C10: when the session carries no role token, `get_user_role` falls back to
the session default `"Faculty"`, which the alias table leaves unchanged, so a
logged-in user with a missing role value is treated as Faculty. -/
theorem missing_role_token_resolves_to_faculty :
    ∀ email : String, get_user_role { role := none, email := email } = "Faculty" :=
  fun _ => rfl

/-- A token outside the alias list is not a key of `role_mapping`. -/
theorem role_mapping_eq_none_of_not_alias {t : String} (h : t ∉ legacyAliases) :
    role_mapping t = none := by
  simp only [legacyAliases, List.mem_cons, List.not_mem_nil, or_false, not_or] at h
  obtain ⟨h1, h2, h3, h4, h5, h6, h7⟩ := h
  unfold role_mapping
  split <;> simp_all

/-- C9: the role resolver sends the legacy tokens admin/Admin/IQAC(admin) to
IQAC, editor/Editor to Office and viewer/Viewer to Faculty, and returns every
token outside this alias table — the canonical tokens included — unchanged;
the result depends only on the session role token, never on the email. -/
theorem role_resolver_alias_table :
    (∀ e, get_user_role { role := some "admin", email := e } = "IQAC") ∧
    (∀ e, get_user_role { role := some "Admin", email := e } = "IQAC") ∧
    (∀ e, get_user_role { role := some "IQAC(admin)", email := e } = "IQAC") ∧
    (∀ e, get_user_role { role := some "editor", email := e } = "Office") ∧
    (∀ e, get_user_role { role := some "Editor", email := e } = "Office") ∧
    (∀ e, get_user_role { role := some "viewer", email := e } = "Faculty") ∧
    (∀ e, get_user_role { role := some "Viewer", email := e } = "Faculty") ∧
    (∀ t e, t ∉ legacyAliases → get_user_role { role := some t, email := e } = t) :=
  ⟨fun _ => rfl, fun _ => rfl, fun _ => rfl, fun _ => rfl, fun _ => rfl,
   fun _ => rfl, fun _ => rfl,
   fun t _ h => by
     unfold get_user_role
     simp [role_mapping_eq_none_of_not_alias h]⟩

/-- C9 witness: the three canonical tokens and an unknown token pass through
the resolver unchanged. -/
theorem role_resolver_alias_table_witness :
    get_user_role { role := some "IQAC", email := "x" } = "IQAC" ∧
    get_user_role { role := some "Office", email := "x" } = "Office" ∧
    get_user_role { role := some "Faculty", email := "x" } = "Faculty" ∧
    get_user_role { role := some "Dean", email := "x" } = "Dean" :=
  ⟨role_resolver_alias_table.2.2.2.2.2.2.2 "IQAC" "x" (by decide),
   role_resolver_alias_table.2.2.2.2.2.2.2 "Office" "x" (by decide),
   role_resolver_alias_table.2.2.2.2.2.2.2 "Faculty" "x" (by decide),
   role_resolver_alias_table.2.2.2.2.2.2.2 "Dean" "x" (by decide)⟩

/-- C8: the classifier applied at create time and at update time is the same
function; it always lands in one of the three buckets, with exact boundaries:
values at most 5.9 give 0-5, values in (5.9, 10.9] give 6-10, and values
above 10.9 give 10+. -/
theorem experience_classifier_boundaries :
    (∀ e : ℚ, edit_faculty_experience_category e = add_faculty_experience_category e) ∧
    (∀ e : ℚ, add_faculty_experience_category e = "0-5" ∨
      add_faculty_experience_category e = "6-10" ∨
      add_faculty_experience_category e = "10+") ∧
    (∀ e : ℚ, e ≤ 5.9 → add_faculty_experience_category e = "0-5") ∧
    (∀ e : ℚ, 5.9 < e → e ≤ 10.9 → add_faculty_experience_category e = "6-10") ∧
    (∀ e : ℚ, 10.9 < e → add_faculty_experience_category e = "10+") := by
  refine ⟨fun e => rfl, fun e => ?_, fun e h => ?_, fun e h1 h2 => ?_, fun e h => ?_⟩
  · unfold add_faculty_experience_category
    split_ifs <;> simp
  · unfold add_faculty_experience_category
    rw [if_pos h]
  · unfold add_faculty_experience_category
    rw [if_neg (by linarith), if_pos h2]
  · unfold add_faculty_experience_category
    rw [if_neg (by linarith), if_neg (by linarith)]

/-- C8 witness: the classifier at the four boundary probes 5.9, 5.91, 10.9
and 10.91. -/
theorem experience_classifier_boundaries_witness :
    add_faculty_experience_category 5.9 = "0-5" ∧
    add_faculty_experience_category 5.91 = "6-10" ∧
    add_faculty_experience_category 10.9 = "6-10" ∧
    add_faculty_experience_category 10.91 = "10+" :=
  ⟨experience_classifier_boundaries.2.2.1 5.9 (by norm_num),
   experience_classifier_boundaries.2.2.2.1 5.91 (by norm_num) (by norm_num),
   experience_classifier_boundaries.2.2.2.1 10.9 (by norm_num) (by norm_num),
   experience_classifier_boundaries.2.2.2.2 10.91 (by norm_num)⟩

/-- C7: the dashboard counters disagree with the classifier on the gap
(5.9, 6): the classifier assigns 5.95 the bucket 6-10, but the inline `index`
statistics (which test `6 <= overall_exp` instead of `5.9 < overall_exp`)
count such a record in no bucket at all, so the three bucket counts sum to 0
while the faculty set has size 1. -/
theorem dashboard_statistics_skip_borderline_records :
    add_faculty_experience_category ((5.95 : ℚ)) = "6-10" ∧
    index_experience_stats [borderlineRec] =
      [{ experience_category := "0-5", count := 0 },
       { experience_category := "6-10", count := 0 },
       { experience_category := "10+", count := 0 }] ∧
    [borderlineRec].length = 1 := by
  refine ⟨?_, ?_, rfl⟩
  · unfold add_faculty_experience_category
    norm_num
  · norm_num [index_experience_stats, List.filter, borderlineRec, ashaRec]

/-- The two text-filter guards coincide when the value is empty or has a
non-empty strip. -/
theorem text_guard_eq (x : String) (h : x = "" ∨ stripTruthy x = true) :
    (x != "" && stripTruthy x) = (x != "") := by
  rcases h with h | h
  · subst h; rfl
  · simp [h]

/-- C6 (amended): the listing and the export build identical queries — and
hence return identical record sets in identical order — whenever none of
the four text filters is a non-empty whitespace-only string; the two paths
differ exactly in that the listing guards text filters with
`if value and value.strip():` while the export guards them with
`if value:`. -/
theorem faculty_list_and_export_agree (s : Session) (args : FilterArgs)
    (hs : args.search = "" ∨ stripTruthy args.search = true)
    (hd : args.department = "" ∨ stripTruthy args.department = true)
    (hdes : args.designation = "" ∨ stripTruthy args.designation = true)
    (hap : args.appointment_type = "" ∨ stripTruthy args.appointment_type = true)
    (db : Db) :
    faculty_list s args db = download_faculty_excel s args db := by
  have hq : faculty_list_query s args = download_faculty_excel_query s args := by
    unfold faculty_list_query download_faculty_excel_query
    rw [text_guard_eq _ hs, text_guard_eq _ hd, text_guard_eq _ hdes,
      text_guard_eq _ hap]
  unfold faculty_list download_faculty_excel
  rw [hq]

/-- C6 witness: with no filters at all, both paths return the same records. -/
theorem faculty_list_and_export_agree_witness :
    faculty_list iqacSession emptyArgs dbAsha =
      download_faculty_excel iqacSession emptyArgs dbAsha :=
  faculty_list_and_export_agree iqacSession emptyArgs (Or.inl rfl) (Or.inl rfl)
    (Or.inl rfl) (Or.inl rfl) dbAsha

/-- C6 counterexample: a whitespace-only search string is skipped by the
listing but applied by the export, so the two paths return different record
sets for the same parameters and database state. -/
theorem faculty_list_and_export_disagree_on_whitespace :
    faculty_list iqacSession spaceSearchArgs dbAsha = some [ashaRec] ∧
    download_faculty_excel iqacSession spaceSearchArgs dbAsha = some [] := by
  decide

/-- C5: a non-empty, non-numeric experience bound is not skipped: the SQL
fragment is appended to the query before `float(...)` raises, so the built
query carries one more `%s` placeholder than it has parameters and the
execution fails (`none`) on both the listing and the export path, instead of
completing with the record set of the bound-free request. -/
theorem invalid_exp_bound_breaks_request :
    pyFloat? "abc" = none ∧
    pyFloat? "xy" = none ∧
    placeholderTotal (faculty_list_query iqacSession badFromArgs).1 =
      (faculty_list_query iqacSession badFromArgs).2.length + 1 ∧
    faculty_list iqacSession badFromArgs dbAsha = none ∧
    download_faculty_excel iqacSession badFromArgs dbAsha = none ∧
    faculty_list iqacSession badToArgs dbAsha = none ∧
    faculty_list iqacSession emptyArgs dbAsha = some [ashaRec] := by
  decide

/-- C4 counterexample: an edit form whose experience components sum to 3
against an overall value of 10 — a mismatch of 7, far beyond the 0.1
tolerance — is applied by `edit_faculty`: the handler reports success and the
stored record now carries the mismatched overall value. -/
theorem edit_faculty_applies_mismatched_experience :
    |mismatchEditForm.teaching_exp_pragati + mismatchEditForm.teaching_exp_other +
      mismatchEditForm.industrial_exp - mismatchEditForm.overall_exp| > 0.1 ∧
    (edit_faculty 7 mismatchEditForm dbAsha).1 = WriteResult.success ∧
    ((edit_faculty 7 mismatchEditForm dbAsha).2.faculty.map fun f => f.overall_exp) =
      [10] := by
  have hdob : pyStrptimeYmd "1980-01-02" = true := by decide
  have hdoj : pyStrptimeYmd "2010-06-01" = true := by decide
  have hcat : edit_faculty_experience_category mismatchEditForm.overall_exp = "6-10" := by
    unfold edit_faculty_experience_category mismatchEditForm
    norm_num
  refine ⟨by norm_num [mismatchEditForm], ?_, ?_⟩
  · simp [edit_faculty, hdob, hdoj, mismatchEditForm, dbAsha, ashaRec]
  · simp [edit_faculty, hdob, hdoj, hcat, dbAsha, ashaRec, mismatchEditForm,
      formToRecord]

/-- C4 (amended): the experience-sum tolerance check exists only on the
create path: `add_faculty` rejects any form whose components differ from the
overall value by more than 0.1 and leaves the database unchanged, while
`edit_faculty` contains no such check — once the duplicate and date
validations pass, it applies the update regardless of the experience sums. -/
theorem experience_sum_validated_only_on_create :
    (∀ form db,
      |form.teaching_exp_pragati + form.teaching_exp_other + form.industrial_exp -
        form.overall_exp| > 0.1 →
      (add_faculty form db).1 ≠ WriteResult.success ∧ (add_faculty form db).2 = db) ∧
    (∀ faculty_id form db,
      (db.faculty.find? (fun f =>
        f.employee_id == form.employee_id && f.id != faculty_id)).isSome = false →
      (db.faculty.find? (fun f =>
        f.email == form.email && f.id != faculty_id)).isSome = false →
      pyStrptimeYmd form.dob = true →
      pyStrptimeYmd form.date_of_joining = true →
      (form.ratification_date != "" &&
        !pyStrptimeYmd form.ratification_date) = false →
      (form.previous_employment_date != "" &&
        !pyStrptimeYmd form.previous_employment_date) = false →
      (form.resignation_date != "" &&
        !pyStrptimeYmd form.resignation_date) = false →
      (edit_faculty faculty_id form db).1 = WriteResult.success ∧
      (edit_faculty faculty_id form db).2.faculty =
        db.faculty.map (fun f =>
          if f.id == faculty_id then
            formToRecord f.id form (edit_faculty_experience_category form.overall_exp)
          else f)) := by
  constructor
  · intro form db hmis
    simp only [add_faculty]
    split_ifs <;> exact ⟨by simp, rfl⟩
  · intro faculty_id form db h1 h2 h3 h4 h5 h6 h7
    simp only [edit_faculty, h1, h2, h3, h4, h5, h6, h7]
    simp

/-- C4 witness: a concrete mismatched create is refused with the database
unchanged, while a concrete clean edit goes through. -/
theorem experience_sum_validated_only_on_create_witness :
    ((add_faculty mismatchEditForm dbAsha).1 ≠ WriteResult.success ∧
      (add_faculty mismatchEditForm dbAsha).2 = dbAsha) ∧
    (edit_faculty 7 mismatchEditForm dbAsha).1 = WriteResult.success :=
  ⟨experience_sum_validated_only_on_create.1 mismatchEditForm dbAsha
      (by norm_num [mismatchEditForm]),
   (experience_sum_validated_only_on_create.2 7 mismatchEditForm dbAsha
      (by decide) (by decide) (by decide) (by decide) (by decide) (by decide)
      (by decide)).1⟩

/-- C3 counterexample: the Faculty-role user `b@x.edu` requesting the
publications of faculty 7 (owned by `a@x.edu`) is not denied and not
redirected to `/faculty`: the page carrying faculty 7 and its journal
publication is rendered, merely with `can_edit = false`. -/
theorem view_publications_shows_other_faculty :
    view_publications belaSession dbTwoFac 7 =
      ViewPublicationsResult.page ashaRec [ashaJournalRow] [] [] [] false ∧
    view_publications belaSession dbTwoFac 7 ≠
      ViewPublicationsResult.notFoundRedirect := by
  decide

/-- C3 (amended): `view_publications` performs no denial at all: whenever the
target faculty record exists it renders the publications page for any
logged-in session; ownership only determines the `can_edit` flag handed to
the template, which is false for a Faculty-role user whose session email
differs from the stored email of the target record. -/
theorem view_publications_renders_for_any_role (s : Session) (db : Db)
    (faculty_id : Nat) (f : FacultyRec)
    (hf : facultyById db.faculty faculty_id = some f)
    (hrole : get_user_role s = "Faculty") (hmail : f.email ≠ s.email) :
    view_publications s db faculty_id =
      ViewPublicationsResult.page f
        (childRowsFor db.journal_publications faculty_id)
        (childRowsFor db.conference_publications faculty_id)
        (childRowsFor db.book_chapters faculty_id)
        (childRowsFor db.patents faculty_id) false := by
  have hce : can_edit_publications s db faculty_id = false := by
    simp only [can_edit_publications, hrole, hf]
    simp [hmail]
  simp only [view_publications, hf, hce]

/-- C3 witness: the amended statement at the concrete cross-faculty
request. -/
theorem view_publications_renders_for_any_role_witness :
    view_publications belaSession dbTwoFac 7 =
      ViewPublicationsResult.page ashaRec
        (childRowsFor dbTwoFac.journal_publications 7)
        (childRowsFor dbTwoFac.conference_publications 7)
        (childRowsFor dbTwoFac.book_chapters 7)
        (childRowsFor dbTwoFac.patents 7) false :=
  view_publications_renders_for_any_role belaSession dbTwoFac 7 ashaRec
    (by decide) rfl (by decide)

/-- C2: the publication-mutation gate is not uniform across the endpoints.
`get_user_role` never returns the token IQAC(admin) (it maps it to IQAC), so
`check_publication_access` — the gate of `add_patent`, `delete_patent` and
the book-chapter delete — denies a canonical-IQAC user even on the faculty
record carrying the email of that very user, while `can_edit_publications` — the
gate of the other endpoints — admits the very same request: the journal
insert succeeds and the patent insert is refused with the database
unchanged. -/
theorem patent_endpoints_deny_canonical_iqac_owner :
    get_user_role { role := some "IQAC(admin)", email := "a@x.edu" } = "IQAC" ∧
    can_edit_publications iqacOwnerSession dbAsha 7 = true ∧
    check_publication_access iqacOwnerSession dbAsha 7 = false ∧
    add_journal_publication iqacOwnerSession dbAsha 7 newPubRow =
      (PublicationResult.success,
        { dbAsha with journal_publications := [newPubRow] }) ∧
    add_patent iqacOwnerSession dbAsha 7 newPubRow =
      (PublicationResult.accessDenied, dbAsha) := by
  decide

/-- C1: `delete_faculty` contains no role gate: `can_delete_faculty` grants
deletion to IQAC alone, but the handler never invokes it (it never consults
the session), so a request by an Office-role or Faculty-role user deletes the
target record and reports success instead of a denial. -/
theorem delete_faculty_has_no_role_gate :
    can_delete_faculty { role := some "IQAC", email := "q@x.edu" } = true ∧
    can_delete_faculty officeSession = false ∧
    can_delete_faculty facultySession = false ∧
    delete_faculty officeSession dbAsha 7 =
      (DeleteFacultyResult.deleted "Asha", { dbAsha with faculty := [] }) ∧
    delete_faculty facultySession dbAsha 7 =
      (DeleteFacultyResult.deleted "Asha", { dbAsha with faculty := [] }) := by
  decide

end FacultyPortal
